import Mathlib

/-! Shallow embedding of src/programming-fun/programming-fun/main.cpp.

An absolute path on a single drive is modelled as the list of its
components below the filesystem root, ordered from the root; the root
itself is the empty list.  std::filesystem::absolute is modelled with the
lexical dot-dot normalization the project's target platform performs
(MSVC, GetFullPathName), so absolute(p / "..") is p.dropLast and the
parent of the root is the root.  Filesystem state is a predicate
isDir : FsPath -> Bool modelling fs::is_directory. -/

abbrev FsPath := List String

/-- Model of the do-while loop of try_get_asset_path (main.cpp 335-350),
written structurally: the argument is the reversed component list of the
current directory, so stepping to the parent directory is taking the
tail.  Each iteration checks current/assets; after stepping to the
parent the loop exits when the parent is the root, so the root's own
assets child is checked only when the walk starts at the root. -/
def tga_walk (isDir : FsPath → Bool) : List String → Option FsPath
  | [] =>
    if isDir ["assets"] then some ["assets"] else none
  | c :: rest =>
    if isDir ((c :: rest).reverse ++ ["assets"]) then
      some ((c :: rest).reverse ++ ["assets"])
    else
      match rest with
      | [] => none
      | _ :: _ => tga_walk isDir rest

/-- Model of try_get_asset_path (main.cpp 335-350): walk upward from
starting_directory looking for an existing child directory "assets";
return the absolute path of that assets directory, or none. -/
def try_get_asset_path (isDir : FsPath → Bool) (starting_directory : FsPath) : Option FsPath :=
  tga_walk isDir starting_directory.reverse

/-- Directories the loop of try_get_asset_path actually checks, in the
order it checks them (argument reversed as in tga_walk). -/
def chain_walk : List String → List FsPath
  | [] => [[]]
  | c :: rest =>
    (c :: rest).reverse ::
      (match rest with
       | [] => []
       | _ :: _ => chain_walk rest)

/-- Directories try_get_asset_path checks starting from p, nearest
first: p, parent p, ..., stopping before the root unless p is the root. -/
def checked_chain (p : FsPath) : List FsPath := chain_walk p.reverse

/-- Number of iterations the do-while loop of try_get_asset_path
performs (argument reversed as in tga_walk). -/
def tga_iters_walk (isDir : FsPath → Bool) : List String → Nat
  | [] => 1
  | c :: rest =>
    if isDir ((c :: rest).reverse ++ ["assets"]) then 1
    else
      match rest with
      | [] => 1
      | _ :: _ => 1 + tga_iters_walk isDir rest

/-- Number of iterations try_get_asset_path performs from p. -/
def tga_iters (isDir : FsPath → Bool) (p : FsPath) : Nat :=
  tga_iters_walk isDir p.reverse

/-- Error taxonomy of the program: every throw_error_message site in
main.cpp, by site. -/
inductive AppError where
  | emptyTitle
  | sdlInitFailed
  | windowCreateFailed
  | glContextFailed
  | glewInitFailed
  | wavLoadFailed
  | oggLoadFailed
  | assetRootNotFound
deriving DecidableEq

/-- Filesystem environment for get_base_path (main.cpp 352-369): the
directory predicate, the current working directory and the directory
SDL_GetBasePath reports for the executable. -/
structure FsEnv where
  isDir : FsPath → Bool
  cwd : FsPath
  exe_dir : FsPath

/-- Starting directories get_base_path can search from. -/
inductive SearchOrigin where
  | workingDir
  | exeDir
deriving DecidableEq

/-- Body of the lambda initializing the function-local static in
get_base_path (main.cpp 355-367): try the working directory, then, only
if that failed, the executable directory.  Also records which origins
were searched. -/
def resolve_asset_root (env : FsEnv) : Option FsPath × List SearchOrigin :=
  match try_get_asset_path env.isDir env.cwd with
  | some p => (some p, [SearchOrigin.workingDir])
  | none =>
    match try_get_asset_path env.isDir env.exe_dir with
    | some p => (some p, [SearchOrigin.workingDir, SearchOrigin.exeDir])
    | none => (none, [SearchOrigin.workingDir, SearchOrigin.exeDir])

/-- Model of get_base_path (main.cpp 352-369).  The function-local
static is modelled as explicit state: cache in, result plus cache out,
plus the list of origins searched during this call (empty when the
cached value is returned).  A throw during static initialization leaves
the static uninitialized, so the out-cache stays none on failure. -/
def get_base_path (env : FsEnv) (cache : Option FsPath) :
    Except AppError FsPath × Option FsPath × List SearchOrigin :=
  match cache with
  | some p => (Except.ok p, some p, [])
  | none =>
    match resolve_asset_root env with
    | (some p, searched) => (Except.ok p, some p, searched)
    | (none, searched) => (Except.error AppError.assetRootNotFound, none, searched)

/-- SDL audio sample formats distinguished by get_openal_format. -/
inductive SDLAudioFmt where
  | u8
  | s16sys
  | f32sys
  | other
deriving DecidableEq

/-- The fields of SDL_AudioSpec that get_openal_format reads. -/
structure SDLAudioSpec where
  channels : Nat
  format : SDLAudioFmt
deriving DecidableEq

def AL_NONE : Nat := 0

def AL_FORMAT_MONO8 : Nat := 4352

def AL_FORMAT_MONO16 : Nat := 4353

def AL_FORMAT_STEREO8 : Nat := 4354

def AL_FORMAT_STEREO16 : Nat := 4355

/-- OpenAL backend state read by get_openal_format: whether
AL_EXT_FLOAT32 is present, and the enum values alGetEnumValue reports
for the two float formats. -/
structure ALBackend where
  float32_ext : Bool
  mono_float32_enum : Nat
  stereo_float32_enum : Nat

/-- Model of get_openal_format (main.cpp 406-433). -/
def get_openal_format (al : ALBackend) (spec : SDLAudioSpec) : Nat :=
  if spec.channels == 1 && spec.format == SDLAudioFmt.u8 then
    AL_FORMAT_MONO8
  else if spec.channels == 1 && spec.format == SDLAudioFmt.s16sys then
    AL_FORMAT_MONO16
  else if spec.channels == 2 && spec.format == SDLAudioFmt.u8 then
    AL_FORMAT_STEREO8
  else if spec.channels == 2 && spec.format == SDLAudioFmt.s16sys then
    AL_FORMAT_STEREO16
  else if spec.channels == 1 && spec.format == SDLAudioFmt.f32sys then
    (if al.float32_ext then al.mono_float32_enum else AL_NONE)
  else if spec.channels == 2 && spec.format == SDLAudioFmt.f32sys then
    (if al.float32_ext then al.stereo_float32_enum else AL_NONE)
  else
    AL_NONE

/-- The four standard channel/sample-format combinations
(mono/stereo times 8-bit unsigned/16-bit signed). -/
def standard_combo (spec : SDLAudioSpec) : Bool :=
  (spec.channels == 1 || spec.channels == 2) &&
    (spec.format == SDLAudioFmt.u8 || spec.format == SDLAudioFmt.s16sys)

/-- The example_image member of Demo (main.cpp 45-51), with its
in-class zero defaults. -/
structure ImageSlot where
  handle : Nat := 0
  width : Nat := 0
  height : Nat := 0
  loaded : Bool := false
deriving DecidableEq

/-- Environment of Demo::Setup: outcomes of the external decoder and
backend calls it makes.  image_decode is the stbi_load result (none on
a missing or corrupt file), gen_texture the handle glGenTextures
yields, wav_load the SDL_LoadWAV result, ogg_decode the channel count
stb_vorbis reports (none on decode failure). -/
structure DemoEnv where
  image_decode : Option (Nat × Nat)
  gen_texture : Nat
  wav_load : Option SDLAudioSpec
  al : ALBackend
  ogg_decode : Option Nat

/-- Model of LoadTextureFromFile (main.cpp 372-401): on decode failure
it returns false without touching the out parameters; on success it
creates a texture and writes handle and dimensions. -/
def LoadTextureFromFile (decode_result : Option (Nat × Nat)) (gen_texture : Nat)
    (out : ImageSlot) : Bool × ImageSlot :=
  match decode_result with
  | none => (false, out)
  | some (w, h) =>
    (true, { out with handle := gen_texture, width := w, height := h })

/-- The image-loading statement of Demo::Setup (main.cpp 440):
example_image.loaded is assigned the return value of
LoadTextureFromFile. -/
def demo_setup_image (env : DemoEnv) (img : ImageSlot) : ImageSlot :=
  let r := LoadTextureFromFile env.image_decode env.gen_texture img
  { r.2 with loaded := r.1 }

/-- Demo state the claims observe. -/
structure DemoState where
  example_image : ImageSlot := {}
deriving DecidableEq

/-- Result of a successful Demo::Setup: the demo state plus the format
arguments passed to the two alBufferData calls. -/
structure SetupRecord where
  st : DemoState
  wav_format : Nat
  ogg_format : Nat
deriving DecidableEq

/-- Model of Demo::Setup (main.cpp 436-482).  The image is loaded
first and its failure is tolerated; a failed SDL_LoadWAV throws
(main.cpp 454-457); the WAV format from get_openal_format is passed to
alBufferData unchecked; a failed stb_vorbis decode throws (470-473);
the OGG format is mono16 or stereo16 by channel count (475). -/
def Demo.Setup (env : DemoEnv) (st : DemoState) : Except AppError SetupRecord :=
  let st1 : DemoState := { st with example_image := demo_setup_image env st.example_image }
  match env.wav_load with
  | none => Except.error AppError.wavLoadFailed
  | some spec =>
    let wfmt := get_openal_format env.al spec
    match env.ogg_decode with
    | none => Except.error AppError.oggLoadFailed
    | some channels =>
      let ofmt := if channels == 1 then AL_FORMAT_MONO16 else AL_FORMAT_STEREO16
      Except.ok { st := st1, wav_format := wfmt, ogg_format := ofmt }

/-- The individual release calls of Application::~Application and
Demo::Shutdown (main.cpp 182-195 and 484-493), in program order. -/
inductive ReleaseAction where
  | deleteTexture (handle : Nat)
  | deleteSources
  | deleteBuffers
  | alcUnsetCurrent
  | alcDestroyContext
  | alcCloseDevice
  | imguiGL3Shutdown
  | imguiSDL2Shutdown
  | imguiDestroyContext
  | sdlGLDeleteContext
  | sdlDestroyWindow
  | sdlQuit
deriving DecidableEq

/-- Model of Demo::Shutdown (main.cpp 484-493): delete the texture only
if it was loaded, then the sources, then the buffers. -/
def Demo.Shutdown (st : DemoState) : List ReleaseAction :=
  (if st.example_image.loaded then
    [ReleaseAction.deleteTexture st.example_image.handle]
   else []) ++ [ReleaseAction.deleteSources, ReleaseAction.deleteBuffers]

/-- UI widgets Demo::ImGuiDraw emits (main.cpp 501-529). -/
inductive UIWidget where
  | textureInfoText (handle : Nat)
  | textureSizeText (w h : Nat)
  | textureImage (handle w h : Nat)
  | fallbackText
  | playMonoButton
  | playStereoButton
deriving DecidableEq

/-- Model of Demo::ImGuiDraw (main.cpp 501-529): image info when the
texture loaded, otherwise the fallback text; always the two audio
buttons. -/
def Demo.ImGuiDraw (st : DemoState) : List UIWidget :=
  (if st.example_image.loaded then
    [UIWidget.textureInfoText st.example_image.handle,
     UIWidget.textureSizeText st.example_image.width st.example_image.height,
     UIWidget.textureImage st.example_image.handle st.example_image.width
       st.example_image.height]
   else [UIWidget.fallbackText]) ++
    [UIWidget.playMonoButton, UIWidget.playStereoButton]

/-- The six subsystems the spec's lifecycle claims are about. -/
inductive Subsystem where
  | window
  | graphics
  | ui
  | audioDevice
  | audioContext
  | assets
deriving DecidableEq

/-- The title precondition check of Application::Application
(main.cpp 170): null or empty title. -/
def title_invalid : Option String → Bool
  | none => true
  | some s => s.isEmpty

/-- Environment of the Application constructor: outcomes of the
fallible external calls.  alcOpenDevice and alcCreateContext are never
checked by the code and cannot throw, so they have no failure flag. -/
structure AppEnv where
  sdl_init_ok : Bool
  create_window_ok : Bool
  gl_context_ok : Bool
  glew_init_ok : Bool
  demo : DemoEnv

/-- Model of Application::Application (main.cpp 168-180) together with
its helpers setupSDLWindow, setupOpenGL and setupImGui.  On a throw the
result carries the error and the subsystems acquired before the throw;
on success it carries the demo state and the full acquisition order.
Note the GL context is already created when glewInit fails. -/
def Application.constructor (title : Option String) (env : AppEnv) :
    Except (AppError × List Subsystem) (DemoState × List Subsystem) :=
  if title_invalid title then
    Except.error (AppError.emptyTitle, [])
  else if !env.sdl_init_ok then
    Except.error (AppError.sdlInitFailed, [])
  else if !env.create_window_ok then
    Except.error (AppError.windowCreateFailed, [])
  else if !env.gl_context_ok then
    Except.error (AppError.glContextFailed, [Subsystem.window])
  else if !env.glew_init_ok then
    Except.error (AppError.glewInitFailed, [Subsystem.window, Subsystem.graphics])
  else
    match Demo.Setup env.demo {} with
    | Except.error e =>
      Except.error (e, [Subsystem.window, Subsystem.graphics, Subsystem.ui,
        Subsystem.audioDevice, Subsystem.audioContext])
    | Except.ok r =>
      Except.ok (r.st, [Subsystem.window, Subsystem.graphics, Subsystem.ui,
        Subsystem.audioDevice, Subsystem.audioContext, Subsystem.assets])

/-- Model of Application::~Application (main.cpp 182-195): the release
calls in program order, starting with Demo::Shutdown. -/
def Application.destructor (st : DemoState) : List ReleaseAction :=
  Demo.Shutdown st ++
    [ReleaseAction.alcUnsetCurrent, ReleaseAction.alcDestroyContext,
     ReleaseAction.alcCloseDevice, ReleaseAction.imguiGL3Shutdown,
     ReleaseAction.imguiSDL2Shutdown, ReleaseAction.imguiDestroyContext,
     ReleaseAction.sdlGLDeleteContext, ReleaseAction.sdlDestroyWindow,
     ReleaseAction.sdlQuit]

/-- Which of the six subsystems a release call tears down.
alcMakeContextCurrent(nullptr) and SDL_Quit release none of the six. -/
def release_subsystem : ReleaseAction → Option Subsystem
  | ReleaseAction.deleteTexture _ => some Subsystem.assets
  | ReleaseAction.deleteSources => some Subsystem.assets
  | ReleaseAction.deleteBuffers => some Subsystem.assets
  | ReleaseAction.alcUnsetCurrent => none
  | ReleaseAction.alcDestroyContext => some Subsystem.audioContext
  | ReleaseAction.alcCloseDevice => some Subsystem.audioDevice
  | ReleaseAction.imguiGL3Shutdown => some Subsystem.ui
  | ReleaseAction.imguiSDL2Shutdown => some Subsystem.ui
  | ReleaseAction.imguiDestroyContext => some Subsystem.ui
  | ReleaseAction.sdlGLDeleteContext => some Subsystem.graphics
  | ReleaseAction.sdlDestroyWindow => some Subsystem.window
  | ReleaseAction.sdlQuit => none

/-- Keep the first occurrence of each element, in order. -/
def firstOccurrences : List Subsystem → List Subsystem
  | [] => []
  | a :: l => a :: (firstOccurrences l).filter (fun b => !(b == a))

/-- Subsystem-level release order of the destructor: the subsystem of
each release call, at the position of its first release call. -/
def release_order (st : DemoState) : List Subsystem :=
  firstOccurrences ((Application.destructor st).filterMap release_subsystem)

/-- Observable outcome of one whole run of main (main.cpp 123-145). -/
structure RunResult where
  exit_code : Int
  acquired : List Subsystem
  released : List Subsystem
deriving DecidableEq

/-- Model of main (main.cpp 123-145).  When the constructor throws, the
exception is caught in main, the Application destructor does not run
(the object was never fully constructed and its members are raw owning
pointers with no cleanup in the constructor), so nothing is released
and main returns -1.  When construction succeeds the frame loop runs
(its length does not affect ownership) and the destructor releases
everything at scope exit. -/
def main_run (title : Option String) (env : AppEnv) (_frames : Nat) : RunResult :=
  match Application.constructor title env with
  | Except.error (_, acq) => { exit_code := -1, acquired := acq, released := [] }
  | Except.ok (st, acq) =>
    { exit_code := 0, acquired := acq, released := release_order st }

/-- A fully healthy environment: every external call succeeds. -/
def envOK : AppEnv :=
  { sdl_init_ok := true
    create_window_ok := true
    gl_context_ok := true
    glew_init_ok := true
    demo :=
      { image_decode := some (64, 64)
        gen_texture := 1
        wav_load := some { channels := 1, format := SDLAudioFmt.u8 }
        al := { float32_ext := false, mono_float32_enum := 0, stereo_float32_enum := 0 }
        ogg_decode := some 2 } }

/-- Healthy environment except that SDL_GL_CreateContext fails. -/
def envGLFail : AppEnv := { envOK with gl_context_ok := false }

/-- Demo environment whose WAV file has an unsupported channel count
(3 channels) and whose backend lacks AL_EXT_FLOAT32. -/
def envUnsupported : DemoEnv :=
  { image_decode := none
    gen_texture := 1
    wav_load := some { channels := 3, format := SDLAudioFmt.u8 }
    al := { float32_ext := false, mono_float32_enum := 0, stereo_float32_enum := 0 }
    ogg_decode := some 2 }

/-- Demo environment whose WAV file is missing. -/
def envWavMissing : DemoEnv :=
  { image_decode := some (32, 32)
    gen_texture := 5
    wav_load := none
    al := { float32_ext := false, mono_float32_enum := 0, stereo_float32_enum := 0 }
    ogg_decode := some 2 }

/-- Demo environment whose image file is missing or corrupt but whose
audio files decode fine. -/
def envImgFail : DemoEnv :=
  { image_decode := none
    gen_texture := 7
    wav_load := some { channels := 2, format := SDLAudioFmt.s16sys }
    al := { float32_ext := false, mono_float32_enum := 0, stereo_float32_enum := 0 }
    ogg_decode := some 1 }

/-- Filesystem where the root has an assets child and the working
directory is the root itself. -/
def fsEnvA : FsEnv :=
  { isDir := fun q => q == [("assets" : String)]
    cwd := []
    exe_dir := ["x"] }

/-- Filesystem with no assets directory anywhere. -/
def fsEnvNone : FsEnv :=
  { isDir := fun _ => false
    cwd := ["a", "b"]
    exe_dir := ["c"] }

/-- Helper: the walk returns exactly the assets child of the first
checked directory that qualifies. -/
theorem tga_walk_eq_find (isDir : FsPath → Bool) (r : List String) :
    tga_walk isDir r =
      (List.find? (fun a => isDir (a ++ ["assets"])) (chain_walk r)).map
        (fun a => a ++ ["assets"]) := by
  induction r with
  | nil =>
    cases h : isDir ["assets"] <;>
      simp [tga_walk, chain_walk, List.find?, h]
  | cons c rest ih =>
    have hq : (c :: rest).reverse ++ ["assets"] = rest.reverse ++ [c, "assets"] := by
      simp
    cases h : isDir (rest.reverse ++ [c, "assets"]) with
    | true =>
      simp [tga_walk, chain_walk, List.find?, h]
    | false =>
      cases rest with
      | nil =>
        simp_all [tga_walk, chain_walk, List.find?]
      | cons d r2 =>
        rw [tga_walk, chain_walk, hq, h]
        simp only [Bool.false_eq_true, if_false]
        rw [List.find?]
        simp only [hq, h]
        exact ih

/-- Helper: try_get_asset_path returns the assets child of the first
(nearest) directory in its checked chain whose assets child exists. -/
theorem tga_eq_find (isDir : FsPath → Bool) (p : FsPath) :
    try_get_asset_path isDir p =
      (List.find? (fun a => isDir (a ++ ["assets"])) (checked_chain p)).map
        (fun a => a ++ ["assets"]) :=
  tga_walk_eq_find isDir p.reverse

/-- C1 (amended): when the nearest directory among those the walk checks
(the starting directory, then its ancestors, stopping before the
filesystem root unless the start is the root) whose child directory
"assets" exists is a, try_get_asset_path returns the absolute path of
that assets child, a/assets — never that of a more distant ancestor. -/
theorem C1_nearest_checked_ancestor (isDir : FsPath → Bool) (p a : FsPath)
    (h : List.find? (fun x => isDir (x ++ ["assets"])) (checked_chain p) = some a) :
    try_get_asset_path isDir p = some (a ++ ["assets"]) := by
  rw [tga_eq_find, h]
  rfl

/-- C1 witness: from proj/sub with proj/assets existing, the nearest
checked directory is proj and the returned path is proj/assets. -/
theorem C1_nearest_checked_ancestor_witness :
    List.find? (fun x => (fun q => q == [("proj" : String), "assets"]) (x ++ ["assets"]))
        (checked_chain ["proj", "sub"]) = some ["proj"] ∧
      try_get_asset_path (fun q => q == [("proj" : String), "assets"]) ["proj", "sub"] =
        some ["proj", "assets"] :=
  ⟨by decide,
   C1_nearest_checked_ancestor (fun q => q == [("proj" : String), "assets"])
     ["proj", "sub"] ["proj"] (by decide)⟩

/-- C1 counterexample: the claim as stated fails twice over.  First,
with proj/assets existing, the nearest qualifying ancestor of proj is
proj itself, but the function returns proj/assets, not proj.  Second,
starting from a one-level directory a when only the root has an assets
child, the ancestor chain of a contains the root, which qualifies, yet
the function returns none: the root is never checked when the walk
starts below it. -/
theorem C1_counterexample :
    try_get_asset_path (fun q => q == [("proj" : String), "assets"]) ["proj"] =
        some ["proj", "assets"] ∧
      some ["proj", "assets"] ≠ (some ["proj"] : Option FsPath) ∧
      (fun q => q == ([("assets" : String)] : FsPath)) ["assets"] = true ∧
      try_get_asset_path (fun q => q == ([("assets" : String)] : FsPath)) ["a"] = none := by
  decide

/-- C4 (amended): when no directory in the checked chain has an assets
child, try_get_asset_path returns none (and, being total, terminates).
The checked chain stops before the root unless the start is the root,
so a root-level assets directory does not prevent the none result. -/
theorem C4_no_qualifying_ancestor (isDir : FsPath → Bool) (p : FsPath)
    (h : ∀ a ∈ checked_chain p, isDir (a ++ ["assets"]) = false) :
    try_get_asset_path isDir p = none := by
  rw [tga_eq_find]
  rw [List.find?_eq_none.mpr]
  · rfl
  · intro a ha
    rw [h a ha]
    exact Bool.false_ne_true

/-- C4 witness: a two-level start in a filesystem with no assets
directory anywhere. -/
theorem C4_no_qualifying_ancestor_witness :
    try_get_asset_path (fun _ => false) ["a", "b"] = none :=
  C4_no_qualifying_ancestor (fun _ => false) ["a", "b"] (by decide)

/-- C4 counterexample: the root's child assets exists, yet starting one
level below the root the search returns empty — the root was not
checked before the loop stopped, contrary to the claim. -/
theorem C4_counterexample :
    (fun q => q == ([("assets" : String)] : FsPath)) ["assets"] = true ∧
      try_get_asset_path (fun q => q == ([("assets" : String)] : FsPath)) ["b"] = none := by
  decide

/-- Helper: one unfolding of the iteration count on a two-or-more
component start. -/
theorem tga_iters_walk_cons2 (isDir : FsPath → Bool) (c d : String) (r2 : List String) :
    tga_iters_walk isDir (c :: d :: r2) =
      if isDir ((c :: d :: r2).reverse ++ ["assets"]) then 1
      else 1 + tga_iters_walk isDir (d :: r2) := rfl

/-- Helper: iteration-count bound for the walk. -/
theorem tga_iters_walk_le (isDir : FsPath → Bool) (r : List String) :
    tga_iters_walk isDir r ≤ r.length + 1 := by
  induction r with
  | nil => simp [tga_iters_walk]
  | cons c rest ih =>
    cases rest with
    | nil =>
      cases h : isDir [c, "assets"] <;>
        simp [tga_iters_walk, h]
    | cons d r2 =>
      rw [tga_iters_walk_cons2]
      cases h : isDir ((c :: d :: r2).reverse ++ ["assets"]) with
      | true =>
        simp
      | false =>
        simp only [Bool.false_eq_true, if_false, List.length_cons]
        simp only [List.length_cons] at ih
        omega

/-- C9: the upward-walk loop of try_get_asset_path always terminates;
the number of iterations it performs is bounded by the path-depth of
the starting directory plus one (each iteration strictly decreases the
depth of the current directory, which is bounded below by the root). -/
theorem C9_loop_terminates (isDir : FsPath → Bool) (p : FsPath) :
    tga_iters isDir p ≤ p.length + 1 := by
  have h := tga_iters_walk_le isDir p.reverse
  rw [tga_iters]
  rw [List.length_reverse] at h
  exact h

/-- C7: get_base_path is memoized.  After one successful resolution the
cache holds the resolved path, and every later call — against any
filesystem state whatsoever — returns the identical path while
searching no origin at all (no filesystem walk). -/
theorem C7_memoized (env1 env2 : FsEnv) (p : FsPath)
    (h : (get_base_path env1 none).1 = Except.ok p) :
    (get_base_path env1 none).2.1 = some p ∧
      (get_base_path env2 (some p)).1 = Except.ok p ∧
      (get_base_path env2 (some p)).2.1 = some p ∧
      (get_base_path env2 (some p)).2.2 = [] := by
  refine ⟨?_, rfl, rfl, rfl⟩
  rw [get_base_path] at h ⊢
  rcases hr : resolve_asset_root env1 with ⟨op, searched⟩
  rw [hr] at h
  cases op with
  | none => simp at h
  | some q =>
    dsimp only at h ⊢
    rw [show q = p from Except.ok.inj h]

/-- C7 witness: resolving once from the root of fsEnvA caches
assets; the second call runs against a filesystem with no assets
directory at all and still returns the cached path, searching
nothing. -/
theorem C7_memoized_witness :
    (get_base_path fsEnvA none).2.1 = some ["assets"] ∧
      (get_base_path fsEnvNone (some ["assets"])).1 = Except.ok ["assets"] ∧
      (get_base_path fsEnvNone (some ["assets"])).2.1 = some ["assets"] ∧
      (get_base_path fsEnvNone (some ["assets"])).2.2 = [] :=
  C7_memoized fsEnvA fsEnvNone ["assets"] rfl

/-- C8: on an uncached call, the working directory is searched first;
when that search succeeds the executable directory is never searched;
the executable directory is searched only after the working-directory
search returns empty; and when both return empty the call fails with
AssetRootNotFound. -/
theorem C8_search_order (env : FsEnv) :
    (∀ p, try_get_asset_path env.isDir env.cwd = some p →
        resolve_asset_root env = (some p, [SearchOrigin.workingDir])) ∧
      (try_get_asset_path env.isDir env.cwd = none →
        ∀ p, try_get_asset_path env.isDir env.exe_dir = some p →
          resolve_asset_root env =
            (some p, [SearchOrigin.workingDir, SearchOrigin.exeDir])) ∧
      (try_get_asset_path env.isDir env.cwd = none →
        try_get_asset_path env.isDir env.exe_dir = none →
          (get_base_path env none).1 = Except.error AppError.assetRootNotFound ∧
            (get_base_path env none).2.2 =
              [SearchOrigin.workingDir, SearchOrigin.exeDir]) := by
  refine ⟨?_, ?_, ?_⟩
  · intro p hp
    rw [resolve_asset_root, hp]
  · intro hc p hp
    rw [resolve_asset_root, hc, hp]
  · intro hc he
    rw [get_base_path, resolve_asset_root, hc, he]
    exact ⟨rfl, rfl⟩

/-- C8 witness: in fsEnvA the working-directory search succeeds and
only the working directory is searched; in fsEnvNone both searches come
back empty and the call fails with AssetRootNotFound after searching
both origins. -/
theorem C8_search_order_witness :
    resolve_asset_root fsEnvA = (some ["assets"], [SearchOrigin.workingDir]) ∧
      (get_base_path fsEnvNone none).1 = Except.error AppError.assetRootNotFound ∧
      (get_base_path fsEnvNone none).2.2 =
        [SearchOrigin.workingDir, SearchOrigin.exeDir] :=
  ⟨(C8_search_order fsEnvA).1 ["assets"] (by decide),
   ((C8_search_order fsEnvNone).2.2 (by decide) (by decide)).1,
   ((C8_search_order fsEnvNone).2.2 (by decide) (by decide)).2⟩

/-- Helper: whatever the demo state, the destructor tears the six
subsystems down as assets, audio context, audio device, UI, graphics
context, window. -/
theorem release_order_eq (st : DemoState) :
    release_order st =
      [Subsystem.assets, Subsystem.audioContext, Subsystem.audioDevice, Subsystem.ui,
       Subsystem.graphics, Subsystem.window] := by
  rcases st with ⟨⟨h, w, ht, loaded⟩⟩
  cases loaded <;> rfl

/-- Helper: a successful constructor acquired exactly the six
subsystems, in order window, graphics, UI, audio device, audio
context, assets. -/
theorem constructor_ok_inv (title : Option String) (env : AppEnv) (st : DemoState)
    (acq : List Subsystem)
    (h : Application.constructor title env = Except.ok (st, acq)) :
    acq = [Subsystem.window, Subsystem.graphics, Subsystem.ui, Subsystem.audioDevice,
      Subsystem.audioContext, Subsystem.assets] := by
  rw [Application.constructor] at h
  split_ifs at h
  rcases hs : Demo.Setup env.demo {} with e | r <;> rw [hs] at h <;> simp at h
  exact h.2.symm

/-- C2 (amended): whenever construction succeeds, shutdown releases the
subsystems in the order assets, then audio context, then audio device,
then UI context, then graphics context, then window — the exact
reverse of the acquisition order — unconditionally, for any number of
frames including zero (even if the Running state was never used). -/
theorem C2_reverse_release (title : Option String) (env : AppEnv) (frames : Nat)
    (st : DemoState) (acq : List Subsystem)
    (h : Application.constructor title env = Except.ok (st, acq)) :
    (main_run title env frames).released =
      [Subsystem.assets, Subsystem.audioContext, Subsystem.audioDevice, Subsystem.ui,
       Subsystem.graphics, Subsystem.window] ∧
      (main_run title env frames).released = acq.reverse := by
  have hacq := constructor_ok_inv title env st acq h
  simp only [main_run, h]
  refine ⟨release_order_eq st, ?_⟩
  rw [release_order_eq, hacq]
  rfl

/-- C2 witness: a fully healthy run with zero frames. -/
theorem C2_reverse_release_witness :
    (main_run (some "t") envOK 0).released =
      [Subsystem.assets, Subsystem.audioContext, Subsystem.audioDevice, Subsystem.ui,
       Subsystem.graphics, Subsystem.window] ∧
      (main_run (some "t") envOK 0).released =
        [Subsystem.window, Subsystem.graphics, Subsystem.ui, Subsystem.audioDevice,
         Subsystem.audioContext, Subsystem.assets].reverse :=
  C2_reverse_release (some "t") envOK 0
    { example_image := { handle := 1, width := 64, height := 64, loaded := true } }
    [Subsystem.window, Subsystem.graphics, Subsystem.ui, Subsystem.audioDevice,
     Subsystem.audioContext, Subsystem.assets] rfl

/-- C2 counterexample: the actual release order puts the audio context
and audio device before the UI context, not after it as the claim
enumerates (assets, then UI, then audio context, then audio device,
then graphics, then window). -/
theorem C2_counterexample :
    (main_run (some "t") envOK 0).released =
      [Subsystem.assets, Subsystem.audioContext, Subsystem.audioDevice, Subsystem.ui,
       Subsystem.graphics, Subsystem.window] ∧
      (main_run (some "t") envOK 0).released ≠
        [Subsystem.assets, Subsystem.ui, Subsystem.audioContext, Subsystem.audioDevice,
         Subsystem.graphics, Subsystem.window] := by
  decide

/-- C3 (amended): when initialization fails at any stage the
constructor throws, the destructor never runs and no subsystem at all
is released — not the ones acquired before the failure either; the
complete reverse-order release happens only when every stage
succeeded. -/
theorem C3_failure_releases_nothing (title : Option String) (env : AppEnv) (frames : Nat) :
    (∀ e acq, Application.constructor title env = Except.error (e, acq) →
        (main_run title env frames).released = []) ∧
      (∀ st acq, Application.constructor title env = Except.ok (st, acq) →
        acq = [Subsystem.window, Subsystem.graphics, Subsystem.ui, Subsystem.audioDevice,
          Subsystem.audioContext, Subsystem.assets] ∧
          (main_run title env frames).released = acq.reverse) := by
  constructor
  · intro e acq h
    simp only [main_run, h]
  · intro st acq h
    have hacq := constructor_ok_inv title env st acq h
    refine ⟨hacq, ?_⟩
    simp only [main_run, h]
    rw [release_order_eq, hacq]
    rfl

/-- C3 witness: with a failing GL-context stage nothing is released
even though the window was acquired; with every stage healthy all six
subsystems are released in reverse order. -/
theorem C3_failure_releases_nothing_witness :
    (main_run (some "t") envGLFail 0).released = [] ∧
      ([Subsystem.window, Subsystem.graphics, Subsystem.ui, Subsystem.audioDevice,
        Subsystem.audioContext, Subsystem.assets] =
        [Subsystem.window, Subsystem.graphics, Subsystem.ui, Subsystem.audioDevice,
         Subsystem.audioContext, Subsystem.assets] ∧
        (main_run (some "t") envOK 0).released =
          [Subsystem.window, Subsystem.graphics, Subsystem.ui, Subsystem.audioDevice,
           Subsystem.audioContext, Subsystem.assets].reverse) :=
  ⟨(C3_failure_releases_nothing (some "t") envGLFail 0).1 AppError.glContextFailed
      [Subsystem.window] rfl,
   (C3_failure_releases_nothing (some "t") envOK 0).2
      { example_image := { handle := 1, width := 64, height := 64, loaded := true } }
      [Subsystem.window, Subsystem.graphics, Subsystem.ui, Subsystem.audioDevice,
       Subsystem.audioContext, Subsystem.assets] rfl⟩

/-- C3 counterexample: GL-context creation fails after the window was
created; the claim demands that the window (stage 1) be released, but
the run releases nothing. -/
theorem C3_counterexample :
    (main_run (some "t") envGLFail 0).acquired = [Subsystem.window] ∧
      (main_run (some "t") envGLFail 0).released = [] ∧
      ([] : List Subsystem) ≠ [Subsystem.window] := by
  decide

/-- C10: a null or empty window title makes the constructor throw
before any subsystem is acquired: nothing is created, nothing is
released, and the process exits with a nonzero status. -/
theorem C10_title_precondition (title : Option String) (env : AppEnv) (frames : Nat)
    (h : title = none ∨ title = some "") :
    Application.constructor title env = Except.error (AppError.emptyTitle, []) ∧
      (main_run title env frames).acquired = [] ∧
      (main_run title env frames).released = [] ∧
      (main_run title env frames).exit_code = -1 := by
  have ht : title_invalid title = true := by
    rcases h with h | h <;> rw [h] <;> rfl
  have hc : Application.constructor title env = Except.error (AppError.emptyTitle, []) := by
    simp [Application.constructor, ht]
  exact ⟨hc, by simp [main_run, hc], by simp [main_run, hc], by simp [main_run, hc]⟩

/-- C10 witness: a null title against a fully healthy environment. -/
theorem C10_title_precondition_witness :
    Application.constructor none envOK = Except.error (AppError.emptyTitle, []) ∧
      (main_run none envOK 0).acquired = [] ∧
      (main_run none envOK 0).released = [] ∧
      (main_run none envOK 0).exit_code = -1 :=
  C10_title_precondition none envOK 0 (Or.inl rfl)

/-- Helper: a combination outside the four standard ones maps to
AL_NONE when the backend lacks AL_EXT_FLOAT32. -/
theorem get_openal_format_nonstandard (al : ALBackend) (spec : SDLAudioSpec)
    (hns : standard_combo spec = false) (hext : al.float32_ext = false) :
    get_openal_format al spec = AL_NONE := by
  rcases spec with ⟨ch, fmt⟩
  rw [standard_combo] at hns
  rw [get_openal_format]
  dsimp only at hns ⊢
  split_ifs with h1 h2 h3 h4 h5 h6 h7 h8
  · simp at h1
    simp [h1.1, h1.2] at hns
  · simp at h2
    simp [h2.1, h2.2] at hns
  · simp at h3
    simp [h3.1, h3.2] at hns
  · simp at h4
    simp [h4.1, h4.2] at hns
  · rw [hext] at h6
    exact absurd h6 Bool.false_ne_true
  · rfl
  · rw [hext] at h8
    exact absurd h8 Bool.false_ne_true
  · rfl
  · rfl

/-- C5 (amended): get_openal_format maps (channels=1, 8-bit unsigned)
to the mono-8 constant and (channels=2, 16-bit signed) to the stereo-16
constant; every channel/sample-format combination outside the four
standard ones maps, absent the floating-point extension, to AL_NONE —
but Demo::Setup does not check the result, so the load does not fail:
it completes, passing AL_NONE to the buffer upload. -/
theorem C5_audio_format_mapping (env : DemoEnv) (st : DemoState) (spec : SDLAudioSpec)
    (c : Nat) (hwav : env.wav_load = some spec) (hogg : env.ogg_decode = some c)
    (hns : standard_combo spec = false) (hext : env.al.float32_ext = false) :
    get_openal_format env.al { channels := 1, format := SDLAudioFmt.u8 } =
        AL_FORMAT_MONO8 ∧
      get_openal_format env.al { channels := 2, format := SDLAudioFmt.s16sys } =
        AL_FORMAT_STEREO16 ∧
      get_openal_format env.al spec = AL_NONE ∧
      ∃ r, Demo.Setup env st = Except.ok r ∧ r.wav_format = AL_NONE := by
  have h3 := get_openal_format_nonstandard env.al spec hns hext
  refine ⟨rfl, rfl, h3, ?_⟩
  simp only [Demo.Setup, hwav, hogg]
  exact ⟨_, rfl, h3⟩

/-- C5 witness: a 3-channel 8-bit WAV on a backend without
AL_EXT_FLOAT32. -/
theorem C5_audio_format_mapping_witness :
    get_openal_format envUnsupported.al { channels := 1, format := SDLAudioFmt.u8 } =
        AL_FORMAT_MONO8 ∧
      get_openal_format envUnsupported.al { channels := 2, format := SDLAudioFmt.s16sys } =
        AL_FORMAT_STEREO16 ∧
      get_openal_format envUnsupported.al { channels := 3, format := SDLAudioFmt.u8 } =
        AL_NONE ∧
      ∃ r, Demo.Setup envUnsupported {} = Except.ok r ∧ r.wav_format = AL_NONE :=
  C5_audio_format_mapping envUnsupported {} { channels := 3, format := SDLAudioFmt.u8 } 2
    rfl rfl (by decide) rfl

/-- C5 counterexample: with a successfully loaded 3-channel 8-bit WAV
(not one of the four standard combinations) and no floating-point
extension, the claim says the load fails with UnsupportedAudioFormat;
in fact Demo::Setup completes successfully, passing the AL_NONE format
to alBufferData unchecked. -/
theorem C5_counterexample :
    standard_combo { channels := 3, format := SDLAudioFmt.u8 } = false ∧
      envUnsupported.al.float32_ext = false ∧
      Demo.Setup envUnsupported {} =
        Except.ok { st := {}, wav_format := AL_NONE, ogg_format := AL_FORMAT_STEREO16 } :=
  ⟨rfl, rfl, rfl⟩

/-- C6 (amended): for the image asset a decode failure does not abort:
Demo::Setup still succeeds (given decodable audio), the image slot is
left in the explicit not-loaded state with no registered handle,
shutdown deletes no texture, and the UI draws the fallback message. -/
theorem C6_image_decode_degrades (env : DemoEnv) (spec : SDLAudioSpec) (c : Nat)
    (himg : env.image_decode = none)
    (hwav : env.wav_load = some spec) (hogg : env.ogg_decode = some c) :
    ∃ r, Demo.Setup env {} = Except.ok r ∧
      r.st.example_image.loaded = false ∧
      r.st.example_image.handle = 0 ∧
      (∀ h, ReleaseAction.deleteTexture h ∉ Demo.Shutdown r.st) ∧
      UIWidget.fallbackText ∈ Demo.ImGuiDraw r.st := by
  have himage : demo_setup_image env ({} : DemoState).example_image = {} := by
    simp [demo_setup_image, LoadTextureFromFile, himg]
  simp only [Demo.Setup, hwav, hogg]
  refine ⟨_, rfl, ?_, ?_, ?_, ?_⟩
  · simp [himage]
  · simp [himage]
  · intro h
    simp [Demo.Shutdown, himage]
  · simp [Demo.ImGuiDraw, himage]

/-- C6 witness: the image file is missing while both audio files
decode. -/
theorem C6_image_decode_degrades_witness :
    ∃ r, Demo.Setup envImgFail {} = Except.ok r ∧
      r.st.example_image.loaded = false ∧
      r.st.example_image.handle = 0 ∧
      (∀ h, ReleaseAction.deleteTexture h ∉ Demo.Shutdown r.st) ∧
      UIWidget.fallbackText ∈ Demo.ImGuiDraw r.st :=
  C6_image_decode_degrades envImgFail { channels := 2, format := SDLAudioFmt.s16sys } 1
    rfl rfl rfl

/-- C6 counterexample: the claim quantifies over every single asset,
but a missing WAV audio asset makes Demo::Setup throw and the process
abort with exit code -1, releasing nothing. -/
theorem C6_counterexample :
    Demo.Setup envWavMissing {} = Except.error AppError.wavLoadFailed ∧
      (main_run (some "t") { envOK with demo := envWavMissing } 0).exit_code = -1 ∧
      (main_run (some "t") { envOK with demo := envWavMissing } 0).released = [] :=
  ⟨rfl, rfl, rfl⟩
